import Mathlib

/-!
A verification development for the software-renderer backend in
src/swrender.cpp.  The backend sits between an abstract 2D acceleration
API (renderer / context / target / image structs) and the underlying SDL
render library.  We embed the three algorithmically interesting pieces:

* the blit clipper used by swrender_UpdateImage and
  swrender_UpdateImageBytes (pure integer rectangle arithmetic);
* the per-context render-target binding cache (setRenderTarget);
* the resource bridge: creation, aliasing, reference counting and
  teardown of targets and images.

Machine integers are modelled as unbounded Int (the quantities involved,
widths and refcounts, stay far away from 32-bit overflow in every claim).
The float fields of GPU_Rect are truncated to int by the C code on entry
to the clippers; the embedding takes the already-truncated integer
rectangles.  Pointers are modelled as Nat identifiers into explicit
stores; SDL_free records the identifier in a freed list while the struct
contents stay readable (freed-but-unreused memory), which lets the
embedding express what the code does on use-after-free sequences.
-/

/-- SDL_Rect with int fields. -/
structure SDLRect where
  x : Int
  y : Int
  w : Int
  h : Int
deriving Repr, DecidableEq

/-- The initial src and dst rectangles of swrender_UpdateImage: the caller
rectangles when given, otherwise the whole source surface and the whole
destination image (swrender.cpp lines 361-383). -/
def initialRects (surfW surfH imgW imgH : Int)
    (surface_rect image_rect : Option SDLRect) : SDLRect × SDLRect :=
  (surface_rect.getD ⟨0, 0, surfW, surfH⟩, image_rect.getD ⟨0, 0, imgW, imgH⟩)

/-- Clip src to the source surface (swrender.cpp lines 385-409): a negative
origin advances both origins and shrinks both extents by the overhang; an
extent past the surface size shrinks both extents by the overhang. -/
def clipSrcToSurface (surfW surfH : Int) (r : SDLRect × SDLRect) :
    SDLRect × SDLRect :=
  let src := r.1
  let dst := r.2
  let p :=
    if src.x < 0 then
      let overhang := -src.x
      ({ src with x := src.x + overhang, w := src.w - overhang },
       { dst with x := dst.x + overhang, w := dst.w - overhang })
    else (src, dst)
  let src := p.1
  let dst := p.2
  let p :=
    if src.y < 0 then
      let overhang := -src.y
      ({ src with y := src.y + overhang, h := src.h - overhang },
       { dst with y := dst.y + overhang, h := dst.h - overhang })
    else (src, dst)
  let src := p.1
  let dst := p.2
  let p :=
    if src.x + src.w > surfW then
      let overhang := src.x + src.w - surfW
      ({ src with w := src.w - overhang }, { dst with w := dst.w - overhang })
    else (src, dst)
  let src := p.1
  let dst := p.2
  if src.y + src.h > surfH then
    let overhang := src.y + src.h - surfH
    ({ src with h := src.h - overhang }, { dst with h := dst.h - overhang })
  else (src, dst)

/-- Clip dst to the destination image (swrender.cpp lines 411-435), by the
same rule, additionally advancing the source origin when trimming a
negative destination origin. -/
def clipDstToImage (imgW imgH : Int) (r : SDLRect × SDLRect) :
    SDLRect × SDLRect :=
  let src := r.1
  let dst := r.2
  let p :=
    if dst.x < 0 then
      let overhang := -dst.x
      ({ src with x := src.x + overhang, w := src.w - overhang },
       { dst with x := dst.x + overhang, w := dst.w - overhang })
    else (src, dst)
  let src := p.1
  let dst := p.2
  let p :=
    if dst.y < 0 then
      let overhang := -dst.y
      ({ src with y := src.y + overhang, h := src.h - overhang },
       { dst with y := dst.y + overhang, h := dst.h - overhang })
    else (src, dst)
  let src := p.1
  let dst := p.2
  let p :=
    if dst.x + dst.w > imgW then
      let overhang := dst.x + dst.w - imgW
      ({ src with w := src.w - overhang }, { dst with w := dst.w - overhang })
    else (src, dst)
  let src := p.1
  let dst := p.2
  if dst.y + dst.h > imgH then
    let overhang := dst.y + dst.h - imgH
    ({ src with h := src.h - overhang }, { dst with h := dst.h - overhang })
  else (src, dst)

/-- Final pairing step (swrender.cpp lines 437-443): clip dst against src,
reducing each destination extent to the source extent when the source one
is smaller. -/
def pairExtents (r : SDLRect × SDLRect) : SDLRect × SDLRect :=
  let src := r.1
  let dst := r.2
  let dst := if src.w < dst.w then { dst with w := src.w } else dst
  let dst := if src.h < dst.h then { dst with h := src.h } else dst
  (src, dst)

/-- The rectangles after steps 1-3 of the clipping phase of
swrender_UpdateImage, before the final pairing step. -/
def updateImagePreClip (surfW surfH imgW imgH : Int)
    (surface_rect image_rect : Option SDLRect) : SDLRect × SDLRect :=
  clipDstToImage imgW imgH
    (clipSrcToSurface surfW surfH
      (initialRects surfW surfH imgW imgH surface_rect image_rect))

/-- The full clipping phase of swrender_UpdateImage (lines 361-443). -/
def updateImageClipped (surfW surfH imgW imgH : Int)
    (surface_rect image_rect : Option SDLRect) : SDLRect × SDLRect :=
  pairExtents (updateImagePreClip surfW surfH imgW imgH surface_rect image_rect)

/-- SDL pixel formats that appear in the backend. -/
inductive SDLPixelFormat where
  | rgb888
  | rgba8888
  | other (code : Nat)
deriving Repr, DecidableEq

/-- Error kinds of the GPU_ERROR enum used by the backend. -/
inductive GPUErrorEnum where
  | data_error
  | user_error
  | unsupported_function
  | null_argument
  | backend_error
  | file_not_found
deriving Repr, DecidableEq

/-- One entry pushed onto the host error stack by GPU_PushErrorCode. -/
structure GPUErrorEntry where
  function : String
  error : GPUErrorEnum
deriving Repr, DecidableEq

/-- The observable effect of swrender_UpdateImage on the texture: either
no SDL_UpdateTexture call at all, or one copy with the given effective
source and destination rectangles. -/
inductive UpdateAction where
  | noop
  | copy (src dst : SDLRect)
deriving Repr, DecidableEq

/-- swrender_UpdateImage (lines 357-477): clip, return early when nothing
is left, otherwise convert the clipped source sub-rectangle out of place
when the pixel formats differ (after a successful conversion the copy
reads the converted surface from origin 0,0) and issue the texture
update.  The function pushes no error on any path; the second component
is the list of error entries it pushes. -/
def swrender_UpdateImage (surfW surfH : Int) (surfFormat : SDLPixelFormat)
    (imgW imgH : Int) (imgFormat : SDLPixelFormat)
    (image_rect surface_rect : Option SDLRect) (convertAllocOk : Bool) :
    UpdateAction × List GPUErrorEntry :=
  let r := updateImageClipped surfW surfH imgW imgH surface_rect image_rect
  let src := r.1
  let dst := r.2
  if dst.w ≤ 0 ∨ dst.h ≤ 0 then (.noop, [])
  else if imgFormat ≠ surfFormat then
    if convertAllocOk then (.copy ⟨0, 0, src.w, src.h⟩ dst, [])
    else (.noop, [])
  else (.copy src dst, [])

/-- The clipping phase of swrender_UpdateImageBytes (lines 485-518):
destination-side clipping only, the byte pointer advancing by
overhang * bytes_per_pixel for a negative x origin and by
overhang * bytes_per_row for a negative y origin.  Returns the clipped
destination rectangle and the total byte-pointer advance. -/
def updateImageBytesClipped (imgW imgH bytesPerPixel bytesPerRow : Int)
    (image_rect : Option SDLRect) : SDLRect × Int :=
  let dst := image_rect.getD ⟨0, 0, imgW, imgH⟩
  let p :=
    if dst.x < 0 then
      let overhang := -dst.x
      ({ dst with x := dst.x + overhang, w := dst.w - overhang },
       overhang * bytesPerPixel)
    else (dst, 0)
  let dst := p.1
  let off := p.2
  let p :=
    if dst.y < 0 then
      let overhang := -dst.y
      ({ dst with y := dst.y + overhang, h := dst.h - overhang },
       off + overhang * bytesPerRow)
    else (dst, off)
  let dst := p.1
  let off := p.2
  let dst :=
    if dst.x + dst.w > imgW then
      { dst with w := dst.w - (dst.x + dst.w - imgW) }
    else dst
  let dst :=
    if dst.y + dst.h > imgH then
      { dst with h := dst.h - (dst.y + dst.h - imgH) }
    else dst
  (dst, off)

/-- swrender_UpdateImageBytes (lines 479-527): clip the destination
rectangle, return without any texture update when nothing is left,
otherwise issue one update with the clipped rectangle and advanced byte
pointer. -/
def swrender_UpdateImageBytes (imgW imgH bytesPerPixel bytesPerRow : Int)
    (image_rect : Option SDLRect) : Option (SDLRect × Int) :=
  let p := updateImageBytesClipped imgW imgH bytesPerPixel bytesPerRow image_rect
  if p.1.w ≤ 0 ∨ p.1.h ≤ 0 then none else some p

/-- C1: for a 10x10 source surface and 10x10 destination image, a source
rectangle of x -2, y 0, w 5, h 5 and no destination rectangle, the
clipping phase of swrender_UpdateImage yields clipped source rectangle
(0,0,3,5) and clipped destination rectangle (2,0,3,5): the negative
x-origin overhang of 2 is trimmed from both rectangles' x-origin and
width in lockstep, and the copy is then issued with exactly those
rectangles (same pixel format on both sides). -/
theorem updateImage_clips_negative_origin_example :
    updateImageClipped 10 10 10 10 (some ⟨-2, 0, 5, 5⟩) none =
      (⟨0, 0, 3, 5⟩, ⟨2, 0, 3, 5⟩) ∧
    swrender_UpdateImage 10 10 .rgba8888 10 10 .rgba8888 none
        (some ⟨-2, 0, 5, 5⟩) true =
      (.copy ⟨0, 0, 3, 5⟩ ⟨2, 0, 3, 5⟩, []) := by
  constructor <;> rfl

/-- The final pairing step computes the componentwise minimum of the two
extents and changes nothing else. -/
theorem pairExtents_eq_min (src dst : SDLRect) :
    pairExtents (src, dst) =
      (src, ⟨dst.x, dst.y, min src.w dst.w, min src.h dst.h⟩) := by
  obtain ⟨sx, sy, sw, sh⟩ := src
  obtain ⟨dx, dy, dw, dh⟩ := dst
  simp only [pairExtents]
  split_ifs <;>
    simp_all only [Prod.mk.injEq, SDLRect.mk.injEq, not_lt, true_and, and_true] <;>
    omega

/-- C2: for every source surface, destination image and pair of caller
rectangles, after the clipping phase of swrender_UpdateImage the
destination width and height are exactly the minimum of the bound-clipped
source and destination extents on each axis (hence never exceed the
clipped source extents), and the final pairing step leaves the source
rectangle and the destination origin untouched. -/
theorem updateImage_pairing_minimum (surfW surfH imgW imgH : Int)
    (surface_rect image_rect : Option SDLRect) :
    (updateImageClipped surfW surfH imgW imgH surface_rect image_rect).1 =
      (updateImagePreClip surfW surfH imgW imgH surface_rect image_rect).1 ∧
    (updateImageClipped surfW surfH imgW imgH surface_rect image_rect).2.w =
      min (updateImagePreClip surfW surfH imgW imgH surface_rect image_rect).1.w
        (updateImagePreClip surfW surfH imgW imgH surface_rect image_rect).2.w ∧
    (updateImageClipped surfW surfH imgW imgH surface_rect image_rect).2.h =
      min (updateImagePreClip surfW surfH imgW imgH surface_rect image_rect).1.h
        (updateImagePreClip surfW surfH imgW imgH surface_rect image_rect).2.h ∧
    (updateImageClipped surfW surfH imgW imgH surface_rect image_rect).2.w ≤
      (updateImageClipped surfW surfH imgW imgH surface_rect image_rect).1.w ∧
    (updateImageClipped surfW surfH imgW imgH surface_rect image_rect).2.h ≤
      (updateImageClipped surfW surfH imgW imgH surface_rect image_rect).1.h ∧
    (updateImageClipped surfW surfH imgW imgH surface_rect image_rect).2.x =
      (updateImagePreClip surfW surfH imgW imgH surface_rect image_rect).2.x ∧
    (updateImageClipped surfW surfH imgW imgH surface_rect image_rect).2.y =
      (updateImagePreClip surfW surfH imgW imgH surface_rect image_rect).2.y := by
  generalize h : updateImagePreClip surfW surfH imgW imgH surface_rect image_rect = p
  obtain ⟨src, dst⟩ := p
  have e : updateImageClipped surfW surfH imgW imgH surface_rect image_rect =
      (src, ⟨dst.x, dst.y, min src.w dst.w, min src.h dst.h⟩) := by
    rw [updateImageClipped, h, pairExtents_eq_min]
  rw [e]
  exact ⟨rfl, rfl, rfl, min_le_left _ _, min_le_left _ _, rfl, rfl⟩

/-- C3: for every input to swrender_UpdateImage and
swrender_UpdateImageBytes, if after clipping the destination width or
height is not positive (in particular whenever the caller's destination
rectangle lies fully outside the destination texture, e.g. dst.x at or
past the texture width), the operation returns with no texture update
and with no error pushed. -/
theorem update_noop_when_clipped_empty (surfW surfH : Int)
    (surfFormat imgFormat : SDLPixelFormat) (imgW imgH : Int)
    (image_rect surface_rect : Option SDLRect) (convertAllocOk : Bool)
    (imgW2 imgH2 bytesPerPixel bytesPerRow : Int) (image_rect2 : Option SDLRect)
    (h1 : (updateImageClipped surfW surfH imgW imgH surface_rect image_rect).2.w ≤ 0 ∨
          (updateImageClipped surfW surfH imgW imgH surface_rect image_rect).2.h ≤ 0)
    (h2 : (updateImageBytesClipped imgW2 imgH2 bytesPerPixel bytesPerRow image_rect2).1.w ≤ 0 ∨
          (updateImageBytesClipped imgW2 imgH2 bytesPerPixel bytesPerRow image_rect2).1.h ≤ 0) :
    swrender_UpdateImage surfW surfH surfFormat imgW imgH imgFormat
        image_rect surface_rect convertAllocOk = (.noop, []) ∧
    swrender_UpdateImageBytes imgW2 imgH2 bytesPerPixel bytesPerRow image_rect2 = none := by
  constructor
  · rw [swrender_UpdateImage]
    simp only [if_pos h1]
  · rw [swrender_UpdateImageBytes]
    simp only [if_pos h2]

/-- Witness for C3 at concrete fully-outside inputs: a destination
rectangle starting at x 12 on a 10-wide texture for swrender_UpdateImage,
and one starting at x 10 on a 10-wide texture for
swrender_UpdateImageBytes. -/
theorem update_noop_when_clipped_empty_witness :
    swrender_UpdateImage 10 10 .rgba8888 10 10 .rgba8888
        (some ⟨12, 0, 4, 4⟩) none true = (.noop, []) ∧
    swrender_UpdateImageBytes 10 10 4 40 (some ⟨10, 0, 4, 4⟩) = none :=
  update_noop_when_clipped_empty 10 10 .rgba8888 .rgba8888 10 10
    (some ⟨12, 0, 4, 4⟩) none true 10 10 4 40 (some ⟨10, 0, 4, 4⟩)
    (by decide) (by decide)

/-- GPU_FormatEnum tags passed to createImage. -/
inductive GPUFormat where
  | luminance
  | luminance_alpha
  | rgb
  | rgba
  | alpha
  | rg
  | yCbCr422
  | yCbCr420p
  | bgr
  | bgra
  | abgr
deriving Repr, DecidableEq

/-- GPU blend-mode presets (the backend only ever installs the normal
alpha preset). -/
inductive GPUBlendPreset where
  | normal
  | premultiplied_alpha
  | multiply
  | add
  | subtract
  | mod_alpha
  | set_alpha
deriving Repr, DecidableEq

/-- GPU_FilterEnum. -/
inductive GPUFilterEnum where
  | nearest
  | linear
  | linear_mipmap
deriving Repr, DecidableEq

/-- GPU_SnapEnum. -/
inductive GPUSnapEnum where
  | none_
  | position
  | dimensions
  | position_and_dimensions
deriving Repr, DecidableEq

/-- GPU_WrapEnum. -/
inductive GPUWrapEnum where
  | none_
  | repeat_
  | mirrored
deriving Repr, DecidableEq

/-- One window context.  GPU_Context and its backend payload
SW_CONTEXT_DATA are allocated and freed together and referenced 1:1, so
the embedding merges them into one record: sdl_renderer and
render_target are the SW_CONTEXT_DATA fields, the rest are GPU_Context
fields used by the backend. -/
structure GPUContextM where
  windowID : Nat
  window_w : Int
  window_h : Int
  sdl_renderer : Nat
  render_target : Nat
deriving Repr, DecidableEq

/-- GPU_Target fields the backend reads or writes.  Purely presentational
host fields (viewport, camera, clip and color state, virtual-resolution
flags) are set once at creation and never read by any operation under
verification, so they are omitted.  Pointers become Nat identifiers. -/
structure GPUTargetM where
  context_target : Nat
  image : Option Nat
  w : Int
  h : Int
  context : Option Nat
  refcount : Int
  is_alias : Bool
deriving Repr, DecidableEq

/-- SW_IMAGE_DATA: the refcounted wrapper around the backing texture. -/
structure SWImageDataM where
  refcount : Int
  sdl_format : SDLPixelFormat
  tex : Nat
deriving Repr, DecidableEq

/-- GPU_Image fields the backend reads or writes (color modulation and
mipmap/virtual-resolution flags are set once and never read; they are
omitted). -/
structure GPUImageM where
  context_target : Nat
  target : Option Nat
  w : Int
  h : Int
  format : GPUFormat
  num_layers : Int
  bytes_per_pixel : Int
  anchor_x : Rat
  anchor_y : Rat
  use_blending : Bool
  blend_mode : GPUBlendPreset
  filter_mode : GPUFilterEnum
  snap_mode : GPUSnapEnum
  wrap_mode_x : GPUWrapEnum
  wrap_mode_y : GPUWrapEnum
  dataId : Nat
  refcount : Int
  is_alias : Bool
deriving Repr, DecidableEq

/-- Point update of an identifier-indexed store. -/
def mapSet {α : Type} (m : Nat → Option α) (k : Nat) (v : α) :
    Nat → Option α :=
  fun i => if i = k then some v else m i

/-- Point update of an identifier-indexed flag. -/
def flagSet (m : Nat → Bool) (k : Nat) (v : Bool) : Nat → Bool :=
  fun i => if i = k then v else m i

/-- The whole backend state: the renderer singleton (current target and
default anchors), the stores of live structs, the freed lists (SDL_free
records the identifier; the stale struct contents remain readable,
modelling freed-but-unreused memory), the observable calls into SDL
(set-render-target count, render-copy log, live textures and renderers),
the host error stack, and the environment oracles (window resolution,
SDL creation success, malloc success list where an empty list means
every allocation succeeds). -/
structure RState where
  contexts : Nat → Option GPUContextM
  targets : Nat → Option GPUTargetM
  images : Nat → Option GPUImageM
  imageDatas : Nat → Option SWImageDataM
  current_context_target : Option Nat
  default_image_anchor_x : Rat
  default_image_anchor_y : Rat
  errors : List GPUErrorEntry
  setRenderTargetCalls : Nat
  renderCopyLog : List (SDLRect × SDLRect)
  texAlive : Nat → Bool
  sdlRendererAlive : Nat → Bool
  freedTargets : List Nat
  freedImages : List Nat
  freedImageDatas : List Nat
  freedContexts : List Nat
  windows : Nat → Bool
  sdlCreateRendererOk : Bool
  sdlCreateTextureOk : Bool
  outputW : Int
  outputH : Int
  allocs : List Bool
  nextId : Nat

/-- GPU_PushErrorCode: push one entry on the host error stack. -/
def pushError (s : RState) (fn : String) (e : GPUErrorEnum) : RState :=
  { s with errors := ⟨fn, e⟩ :: s.errors }

/-- One SDL_malloc: pop the next success flag from the oracle (an
exhausted oracle means success). -/
def takeAlloc (s : RState) : Bool × RState :=
  match s.allocs with
  | [] => (true, s)
  | b :: rest => (b, { s with allocs := rest })

/-- The state of swrender_CreateRenderer's result combined with a fresh
environment: empty stores, no current target, default anchors 0.5, and
all environment oracles succeeding. -/
def initState : RState where
  contexts := fun _ => none
  targets := fun _ => none
  images := fun _ => none
  imageDatas := fun _ => none
  current_context_target := none
  default_image_anchor_x := 1/2
  default_image_anchor_y := 1/2
  errors := []
  setRenderTargetCalls := 0
  renderCopyLog := []
  texAlive := fun _ => false
  sdlRendererAlive := fun _ => false
  freedTargets := []
  freedImages := []
  freedImageDatas := []
  freedContexts := []
  windows := fun _ => true
  sdlCreateRendererOk := true
  sdlCreateTextureOk := true
  outputW := 640
  outputH := 480
  allocs := []
  nextId := 0

/-- The pointer chain target->context_target->context->data used by both
SDL_RENDERER and CONTEXT_DATA in the C code: the owning context of a
target, with its identifier. -/
def resolveCtx (s : RState) (t : Nat) : Option (Nat × GPUContextM) :=
  (s.targets t).bind fun tgt =>
    (s.targets tgt.context_target).bind fun ct =>
      ct.context.bind fun cid =>
        (s.contexts cid).map fun ctx => (cid, ctx)

/-- setRenderTarget (swrender.cpp lines 81-97): resolve the SDL renderer
through target->context_target->context; when the context's cached
render_target differs from the requested target, update the cache and
issue one SDL_SetRenderTarget call (to the target's backing texture for
an offscreen target, to the window for the window target); otherwise do
nothing.  Returns the updated state and the SDL renderer handle.  A
failing pointer resolution (impossible in the C code's intended usage)
leaves the state unchanged and returns no handle. -/
def setRenderTarget (s : RState) (target : Nat) : RState × Option Nat :=
  match resolveCtx s target with
  | none => (s, none)
  | some (cid, ctx) =>
    if ctx.render_target ≠ target then
      ({ s with
          contexts := mapSet s.contexts cid { ctx with render_target := target },
          setRenderTargetCalls := s.setRenderTargetCalls + 1 },
       some ctx.sdl_renderer)
    else (s, some ctx.sdl_renderer)

/-- swrender_CreateTargetFromWindow (lines 116-186).  Failure cases: a
target passed for re-initialization or an already existing window target
push GPU_ERROR_UNSUPPORTED_FUNCTION; an unresolvable window or a failing
SDL_CreateRenderer push GPU_ERROR_BACKEND_ERROR; all return null.  When
any of the three SDL_mallocs fails, the three structs are freed and null
is returned with no error pushed; the SDL renderer created just before
is left alive.  On success the context and the window target (which is
its own context_target) are installed with the renderer's reported
output size and become the renderer's current_context_target. -/
def swrender_CreateTargetFromWindow (s : RState) (windowID : Nat)
    (target : Option Nat) : RState × Option Nat :=
  if target.isSome then
    (pushError s "GPU_CreateTargetFromWindow" .unsupported_function, none)
  else if s.current_context_target.isSome then
    (pushError s "GPU_CreateTargetFromWindow" .unsupported_function, none)
  else if ¬ s.windows windowID then
    (pushError s "GPU_CreateTargetFromWindow" .backend_error, none)
  else if ¬ s.sdlCreateRendererOk then
    (pushError s "GPU_CreateTargetFromWindow" .backend_error, none)
  else
    let rid := s.nextId
    let s1 := { s with
      nextId := s.nextId + 1,
      sdlRendererAlive := flagSet s.sdlRendererAlive rid true }
    let a1 := takeAlloc s1
    let a2 := takeAlloc a1.2
    let a3 := takeAlloc a2.2
    let s2 := a3.2
    if a1.1 ∧ a2.1 ∧ a3.1 then
      let tid := s2.nextId
      let cid := s2.nextId + 1
      let ctx : GPUContextM :=
        { windowID := windowID
          window_w := s2.outputW
          window_h := s2.outputH
          sdl_renderer := rid
          render_target := tid }
      let tgt : GPUTargetM :=
        { context_target := tid
          image := none
          w := s2.outputW
          h := s2.outputH
          context := some cid
          refcount := 1
          is_alias := false }
      ({ s2 with
          contexts := mapSet s2.contexts cid ctx,
          targets := mapSet s2.targets tid tgt,
          current_context_target := some tid,
          nextId := s2.nextId + 2 },
       some tid)
    else
      (s2, none)

/-- The format switch of swrender_CreateImage (lines 269-285): the SDL
pixel format and num_layers for the two supported format tags, nothing
for every other tag (both supported formats use 4 bytes per pixel). -/
def formatInfo : GPUFormat → Option (SDLPixelFormat × Int)
  | .rgb => some (.rgb888, 3)
  | .rgba => some (.rgba8888, 4)
  | _ => none

/-- swrender_CreateImage (lines 251-318).  No current context pushes
GPU_ERROR_USER_ERROR; a failing SDL_malloc frees both structs and
returns null silently; a format other than RGB and RGBA, or a failing
SDL_CreateTexture, pushes GPU_ERROR_BACKEND_ERROR; on success a fresh
texture and image are installed, the image carrying the renderer's
default anchor, the normal alpha blend preset, the linear filter and
refcount 1. -/
def swrender_CreateImage (s : RState) (w h : Int) (format : GPUFormat) :
    RState × Option Nat :=
  match s.current_context_target with
  | none => (pushError s "GPU_CreateImage" .user_error, none)
  | some cct =>
    let a1 := takeAlloc s
    let a2 := takeAlloc a1.2
    let s1 := a2.2
    if ¬ (a1.1 ∧ a2.1) then (s1, none)
    else
      match formatInfo format with
      | none => (pushError s1 "GPU_CreateImage" .backend_error, none)
      | some (sdl_format, num_layers) =>
        if ¬ s1.sdlCreateTextureOk then
          (pushError s1 "GPU_CreateImage" .backend_error, none)
        else
          let imgId := s1.nextId
          let dataId := s1.nextId + 1
          let texId := s1.nextId + 2
          let image_data : SWImageDataM :=
            { refcount := 1, sdl_format := sdl_format, tex := texId }
          let image : GPUImageM :=
            { context_target := cct
              target := none
              w := w
              h := h
              format := format
              num_layers := num_layers
              bytes_per_pixel := 4
              anchor_x := s1.default_image_anchor_x
              anchor_y := s1.default_image_anchor_y
              use_blending := true
              blend_mode := .normal
              filter_mode := .linear
              snap_mode := .position_and_dimensions
              wrap_mode_x := .none_
              wrap_mode_y := .none_
              dataId := dataId
              refcount := 1
              is_alias := false }
          ({ s1 with
              images := mapSet s1.images imgId image,
              imageDatas := mapSet s1.imageDatas dataId image_data,
              texAlive := flagSet s1.texAlive texId true,
              nextId := s1.nextId + 3 },
           some imgId)

/-- Result of swrender_CreateAliasImage: null for a null input, a new
image handle on success, or a crash.  The C code does not null-check its
SDL_malloc before writing through the result pointer, so a failing
allocation dereferences a null pointer. -/
inductive AliasResult where
  | null
  | img (id : Nat)
  | crash
deriving Repr, DecidableEq

/-- swrender_CreateAliasImage (lines 326-343): null input returns null;
otherwise malloc a struct, shallow-copy the whole image into it (the
malloc result is not checked: a failing allocation crashes), increment
the backing SW_IMAGE_DATA refcount, and give the copy its own refcount 1
and the alias mark. -/
def swrender_CreateAliasImage (s : RState) (image : Option Nat) :
    RState × AliasResult :=
  match image with
  | none => (s, .null)
  | some iid =>
    match s.images iid with
    | none => (s, .crash)
    | some img =>
      let a := takeAlloc s
      let s1 := a.2
      if ¬ a.1 then (s1, .crash)
      else
        match s1.imageDatas img.dataId with
        | none => (s1, .crash)
        | some d =>
          let rid := s1.nextId
          ({ s1 with
              images := mapSet s1.images rid
                { img with refcount := 1, is_alias := true },
              imageDatas := mapSet s1.imageDatas img.dataId
                { d with refcount := d.refcount + 1 },
              nextId := s1.nextId + 1 },
           .img rid)

/-- swrender_LoadTarget (lines 591-626): null image returns null; an
image that already has a derived target raises that target's refcount
and returns it; otherwise (malloc permitting) a fresh offscreen target
sized to the image, with no context and context_target inherited from
the image, is created, linked back from the image, with refcount 1. -/
def swrender_LoadTarget (s : RState) (image : Option Nat) :
    RState × Option Nat :=
  match image with
  | none => (s, none)
  | some iid =>
    match s.images iid with
    | none => (s, none)
    | some img =>
      match img.target with
      | some tid =>
        match s.targets tid with
        | none => (s, none)
        | some tgt =>
          ({ s with
              targets := mapSet s.targets tid
                { tgt with refcount := tgt.refcount + 1 } },
           some tid)
      | none =>
        let a := takeAlloc s
        let s1 := a.2
        if ¬ a.1 then (s1, none)
        else
          let tid := s1.nextId
          let tgt : GPUTargetM :=
            { context_target := img.context_target
              image := some iid
              w := img.w
              h := img.h
              context := none
              refcount := 1
              is_alias := false }
          ({ s1 with
              targets := mapSet s1.targets tid tgt,
              images := mapSet s1.images iid { img with target := some tid },
              nextId := s1.nextId + 1 },
           some tid)

/-- The back-reference clearing step of swrender_FreeTarget (lines
638-640): a non-alias target whose refcount reached zero clears its
image's target pointer. -/
def clearImageBackref (s : RState) (tgt1 : GPUTargetM) : RState :=
  if ¬ tgt1.is_alias then
    match tgt1.image with
    | some iid =>
      match s.images iid with
      | some img =>
        { s with images := mapSet s.images iid { img with target := none } }
      | none => s
    | none => s
  else s

/-- swrender_FreeTarget (lines 628-659): decrement the refcount and stop
while it stays positive.  At zero: a non-alias target clears its image's
back-reference; a window target (context present) destroys the SDL
renderer, frees the context, and clears the renderer's
current_context_target if it pointed here; an offscreen target that is
its context's cached bound destination rebinds the destination to the
window target first.  Finally the target struct itself is freed. -/
def swrender_FreeTarget (s : RState) (target : Option Nat) : RState :=
  match target with
  | none => s
  | some tid =>
    match s.targets tid with
    | none => s
    | some tgt =>
      let rc := tgt.refcount - 1
      let tgt1 := { tgt with refcount := rc }
      let s1 := { s with targets := mapSet s.targets tid tgt1 }
      if rc > 0 then s1
      else
        let s2 := clearImageBackref s1 tgt1
        match tgt1.context with
        | some cid =>
          let s3 :=
            match s2.contexts cid with
            | some ctx =>
              { s2 with
                  sdlRendererAlive := flagSet s2.sdlRendererAlive ctx.sdl_renderer false,
                  freedContexts := cid :: s2.freedContexts }
            | none => s2
          let s4 := { s3 with
            targets := mapSet s3.targets tid { tgt1 with context := none } }
          let s5 :=
            if s4.current_context_target = some tid then
              { s4 with current_context_target := none }
            else s4
          { s5 with freedTargets := tid :: s5.freedTargets }
        | none =>
          let s3 :=
            match s2.targets tgt1.context_target with
            | some ct =>
              match ct.context with
              | some cid =>
                match s2.contexts cid with
                | some ctx =>
                  if ctx.render_target = tid then
                    (setRenderTarget s2 tgt1.context_target).1
                  else s2
                | none => s2
              | none => s2
            | none => s2
          { s3 with freedTargets := tid :: s3.freedTargets }

/-- swrender_FreeImage (lines 564-589): decrement the struct's own
refcount and stop while it stays positive.  At zero: free the derived
target first (clearing the back-reference before the recursive call),
then decrement the backing SW_IMAGE_DATA refcount, destroying the
texture and the wrapper when that reaches zero too, and finally free the
image struct. -/
def swrender_FreeImage (s : RState) (image : Option Nat) : RState :=
  match image with
  | none => s
  | some iid =>
    match s.images iid with
    | none => s
    | some img =>
      let rc := img.refcount - 1
      let img1 := { img with refcount := rc }
      let s1 := { s with images := mapSet s.images iid img1 }
      if rc > 0 then s1
      else
        let s2 :=
          match img1.target with
          | some tid =>
            swrender_FreeTarget
              { s1 with images := mapSet s1.images iid { img1 with target := none } }
              (some tid)
          | none => s1
        match s2.imageDatas img1.dataId with
        | none => { s2 with freedImages := iid :: s2.freedImages }
        | some d =>
          let d1 := { d with refcount := d.refcount - 1 }
          let s3 := { s2 with imageDatas := mapSet s2.imageDatas img1.dataId d1 }
          let s4 :=
            if d1.refcount ≤ 0 then
              { s3 with
                  texAlive := flagSet s3.texAlive d1.tex false,
                  freedImageDatas := img1.dataId :: s3.freedImageDatas }
            else s3
          { s4 with freedImages := iid :: s4.freedImages }

/-- Truncation toward zero, the C float-to-int conversion. -/
def ratTrunc (q : Rat) : Int :=
  if 0 ≤ q then q.floor else -((-q).floor)

/-- swrender_Blit (lines 661-684): take the caller's source rectangle or
the whole image, anchor the destination at (x, y) minus the anchor
fraction of the source extent, bind the target through the render-target
cache, and issue one SDL_RenderCopy (appended to the log). -/
def swrender_Blit (s : RState) (image : Option Nat) (src_rect : Option SDLRect)
    (target : Nat) (x y : Rat) : RState :=
  match image with
  | none => s
  | some iid =>
    match s.images iid with
    | none => s
    | some img =>
      let src : SDLRect := src_rect.getD ⟨0, 0, img.w, img.h⟩
      let dst : SDLRect :=
        { x := ratTrunc ((ratTrunc x : Rat) - (src.w : Rat) * img.anchor_x)
          y := ratTrunc ((ratTrunc y : Rat) - (src.h : Rat) * img.anchor_y)
          w := src.w
          h := src.h }
      let p := setRenderTarget s target
      { p.1 with renderCopyLog := (src, dst) :: p.1.renderCopyLog }

/-- Sample run: initState after creating the window target for window 1.
Identifiers: SDL renderer 0, window target 1, context 2. -/
def st1 : RState := (swrender_CreateTargetFromWindow initState 1 none).1

/-- Sample run: st1 after creating one 8x8 RGBA image.
Identifiers: image 3, image data 4, texture 5. -/
def stImg : RState := (swrender_CreateImage st1 8 8 .rgba).1

/-- Sample run: stImg after loading the image as a target.
Identifier: offscreen target 6. -/
def stL : RState := (swrender_LoadTarget stImg (some 3)).1

theorem resolveCtx_after_update (s : RState) (t cid : Nat) (ctx ctx' : GPUContextM)
    (h : resolveCtx s t = some (cid, ctx)) :
    resolveCtx { s with contexts := mapSet s.contexts cid ctx',
                        setRenderTargetCalls := s.setRenderTargetCalls + 1 } t =
      some (cid, ctx') := by
  simp only [resolveCtx, Option.bind_eq_some, Option.map_eq_some'] at h
  obtain ⟨tgt, h1, ct, h2, cid0, h3, ctx0, h4, h5⟩ := h
  simp only [Prod.mk.injEq] at h5
  obtain ⟨hcid, hctx⟩ := h5
  subst hcid
  subst hctx
  simp only [resolveCtx, Option.bind_eq_some, Option.map_eq_some']
  exact ⟨tgt, h1, ct, h2, cid0, h3, ctx', by simp [mapSet], rfl⟩

theorem setRenderTarget_calls_le (s : RState) (t : Nat) :
    (setRenderTarget s t).1.setRenderTargetCalls ≤ s.setRenderTargetCalls + 1 := by
  rw [setRenderTarget]
  rcases h : resolveCtx s t with _ | ⟨cid, ctx⟩
  · exact Nat.le_succ _
  · dsimp only
    split_ifs <;> dsimp only <;> omega

theorem setRenderTarget_stable (s : RState) (t : Nat) :
    (setRenderTarget (setRenderTarget s t).1 t).1 = (setRenderTarget s t).1 := by
  rcases h : resolveCtx s t with _ | ⟨cid, ctx⟩
  · simp only [setRenderTarget, h]
  · by_cases he : ctx.render_target = t
    · simp only [setRenderTarget, h, he, ne_eq, not_true_eq_false, if_false]
    · have h2 := resolveCtx_after_update s t cid ctx { ctx with render_target := t } h
      simp only [setRenderTarget, h, if_pos he]
      simp only [setRenderTarget, ne_eq, he, not_false_eq_true, if_true, h2]
      simp

theorem setRenderTarget_log (s : RState) (L : List (SDLRect × SDLRect)) (t : Nat) :
    (setRenderTarget { s with renderCopyLog := L } t).1 =
      { (setRenderTarget s t).1 with renderCopyLog := L } := by
  have hr : resolveCtx { s with renderCopyLog := L } t = resolveCtx s t := rfl
  rcases h : resolveCtx s t with _ | ⟨cid, ctx⟩
  · simp only [setRenderTarget, hr, h]
  · simp only [setRenderTarget, hr, h]
    split_ifs <;> rfl

theorem blit_cases (s : RState) (i : Option Nat) (sr : Option SDLRect)
    (t : Nat) (x y : Rat) :
    swrender_Blit s i sr t x y = s ∨
    ∃ L, swrender_Blit s i sr t x y =
      { (setRenderTarget s t).1 with renderCopyLog := L } := by
  rcases i with _ | iid
  · exact Or.inl rfl
  · rcases h : s.images iid with _ | img
    · exact Or.inl (by simp only [swrender_Blit, h])
    · simp only [swrender_Blit, h]
      right
      exact ⟨_, rfl⟩

theorem blit_twice_calls (s : RState) (i1 i2 : Option Nat)
    (sr1 sr2 : Option SDLRect) (t : Nat) (x1 y1 x2 y2 : Rat) :
    (swrender_Blit (swrender_Blit s i1 sr1 t x1 y1) i2 sr2 t x2 y2).setRenderTargetCalls ≤
      s.setRenderTargetCalls + 1 := by
  rcases blit_cases s i1 sr1 t x1 y1 with h1 | ⟨L1, h1⟩
  · rw [h1]
    rcases blit_cases s i2 sr2 t x2 y2 with h2 | ⟨L2, h2⟩
    · rw [h2]
      exact Nat.le_succ _
    · rw [h2]
      exact setRenderTarget_calls_le s t
  · rcases blit_cases (swrender_Blit s i1 sr1 t x1 y1) i2 sr2 t x2 y2 with h2 | ⟨L2, h2⟩
    · rw [h2, h1]
      exact setRenderTarget_calls_le s t
    · rw [h2, h1, setRenderTarget_log ((setRenderTarget s t).1) L1 t,
        setRenderTarget_stable s t]
      exact setRenderTarget_calls_le s t

/-- C4: binding a target as the render destination is idempotent: when
the owning context (resolved through the target's context_target chain,
the identity used by the C code) already caches this target as its bound
render_target, setRenderTarget changes nothing, issues no underlying
SDL_SetRenderTarget call, and only returns the context's SDL renderer
handle; consequently two consecutive blits to the same target issue the
set-destination primitive at most once across the pair. -/
theorem setRenderTarget_idempotent_blit_once (s : RState) (t cid : Nat)
    (ctx : GPUContextM) (h : resolveCtx s t = some (cid, ctx))
    (hc : ctx.render_target = t) (i1 i2 : Option Nat)
    (sr1 sr2 : Option SDLRect) (x1 y1 x2 y2 : Rat) :
    setRenderTarget s t = (s, some ctx.sdl_renderer) ∧
    (swrender_Blit (swrender_Blit s i1 sr1 t x1 y1) i2 sr2 t x2 y2).setRenderTargetCalls ≤
      s.setRenderTargetCalls + 1 := by
  constructor
  · rw [setRenderTarget, h]
    simp [hc]
  · exact blit_twice_calls s i1 i2 sr1 sr2 t x1 y1 x2 y2

/-- Witness for C4: in the sample state the window target 1 is cached by
its context 2 right after creation, so a rebind is a no-op returning SDL
renderer 0, and two blits to it set the destination at most once. -/
theorem setRenderTarget_idempotent_blit_once_witness :
    setRenderTarget st1 1 = (st1, some 0) ∧
    (swrender_Blit (swrender_Blit st1 none none 1 0 0) none none 1 0 0).setRenderTargetCalls ≤
      st1.setRenderTargetCalls + 1 :=
  setRenderTarget_idempotent_blit_once st1 1 2 ⟨1, 640, 480, 0, 1⟩
    (by decide) rfl none none none none 0 0 0 0

/-- C7 (amended): createTargetFromWindow fails with UnsupportedOperation
and returns null when a target is passed for re-initialization or when a
window target already exists on the renderer, and fails with
BackendError (not UnsupportedOperation) and returns null when the
requested window handle cannot be resolved; in every failure case the
result state only gains an error entry: the context store, the target
store and the renderer's current target are unchanged. -/
theorem createTargetFromWindow_failures (s : RState) (windowID : Nat)
    (t : Option Nat) :
    (t.isSome →
      swrender_CreateTargetFromWindow s windowID t =
        (pushError s "GPU_CreateTargetFromWindow" .unsupported_function, none)) ∧
    (s.current_context_target.isSome →
      swrender_CreateTargetFromWindow s windowID t =
        (pushError s "GPU_CreateTargetFromWindow" .unsupported_function, none)) ∧
    (t = none → s.current_context_target = none → s.windows windowID = false →
      swrender_CreateTargetFromWindow s windowID t =
        (pushError s "GPU_CreateTargetFromWindow" .backend_error, none)) ∧
    (∀ fn e, (pushError s fn e).contexts = s.contexts ∧
      (pushError s fn e).targets = s.targets ∧
      (pushError s fn e).current_context_target = s.current_context_target) := by
  refine ⟨?_, ?_, ?_, fun fn e => ⟨rfl, rfl, rfl⟩⟩
  · intro ht
    rw [swrender_CreateTargetFromWindow, if_pos ht]
  · intro hc
    rcases t with _ | t0
    · rw [swrender_CreateTargetFromWindow, if_neg (by simp), if_pos hc]
    · rw [swrender_CreateTargetFromWindow, if_pos (by simp)]
  · intro ht hc hw
    subst ht
    rw [swrender_CreateTargetFromWindow, if_neg (by simp), if_neg (by simp [hc]),
      if_pos (by simp [hw])]

/-- Counterexample for C7 as stated: when the window handle cannot be
resolved, the pushed error kind is BackendError, not the claimed
UnsupportedOperation. -/
theorem createTargetFromWindow_unresolved_kind_counterexample :
    (swrender_CreateTargetFromWindow { initState with windows := fun _ => false }
        1 none).1.errors =
      [⟨"GPU_CreateTargetFromWindow", .backend_error⟩] ∧
    GPUErrorEnum.backend_error ≠ GPUErrorEnum.unsupported_function :=
  ⟨rfl, by decide⟩

/-- Witness for C7 at concrete inputs: re-initialization of the window
target of st1, and a second window target on st1. -/
theorem createTargetFromWindow_failures_witness :
    (swrender_CreateTargetFromWindow st1 1 (some 1) =
      (pushError st1 "GPU_CreateTargetFromWindow" .unsupported_function, none)) ∧
    (swrender_CreateTargetFromWindow st1 5 none =
      (pushError st1 "GPU_CreateTargetFromWindow" .unsupported_function, none)) ∧
    (swrender_CreateTargetFromWindow
        { initState with windows := fun _ => false } 7 none =
      (pushError { initState with windows := fun _ => false }
        "GPU_CreateTargetFromWindow" .backend_error, none)) :=
  ⟨(createTargetFromWindow_failures st1 1 (some 1)).1 rfl,
   (createTargetFromWindow_failures st1 5 none).2.1 rfl,
   (createTargetFromWindow_failures
     { initState with windows := fun _ => false } 7 none).2.2.1 rfl rfl rfl⟩

/-- C8: createImage with no current context target pushes UserError and
returns null.  With a context present (and allocation and texture
creation succeeding, the renderer defaults being the 0.5 center anchors
installed by swrender_CreateRenderer) it succeeds for the RGB and RGBA
format tags, returning a fresh image with anchor (0.5, 0.5), blending
enabled with the normal alpha preset, the linear filter, refcount 1 and
no alias mark; for every other format tag it pushes BackendError and
returns null. -/
theorem createImage_spec (s : RState) (w h : Int) (format : GPUFormat)
    (hax : s.default_image_anchor_x = 1/2) (hay : s.default_image_anchor_y = 1/2)
    (halloc : s.allocs = []) (htex : s.sdlCreateTextureOk = true) :
    (s.current_context_target = none →
      swrender_CreateImage s w h format =
        (pushError s "GPU_CreateImage" .user_error, none)) ∧
    (∀ cct, s.current_context_target = some cct →
      format = .rgb ∨ format = .rgba →
      (swrender_CreateImage s w h format).2 = some s.nextId ∧
      ((swrender_CreateImage s w h format).1.images s.nextId).map
          GPUImageM.anchor_x = some (1/2) ∧
      ((swrender_CreateImage s w h format).1.images s.nextId).map
          GPUImageM.anchor_y = some (1/2) ∧
      ((swrender_CreateImage s w h format).1.images s.nextId).map
          GPUImageM.use_blending = some true ∧
      ((swrender_CreateImage s w h format).1.images s.nextId).map
          GPUImageM.blend_mode = some .normal ∧
      ((swrender_CreateImage s w h format).1.images s.nextId).map
          GPUImageM.filter_mode = some .linear ∧
      ((swrender_CreateImage s w h format).1.images s.nextId).map
          GPUImageM.refcount = some 1 ∧
      ((swrender_CreateImage s w h format).1.images s.nextId).map
          GPUImageM.is_alias = some false) ∧
    (∀ cct, s.current_context_target = some cct →
      format ≠ .rgb → format ≠ .rgba →
      swrender_CreateImage s w h format =
        (pushError s "GPU_CreateImage" .backend_error, none)) := by
  have htake : takeAlloc s = (true, s) := by rw [takeAlloc, halloc]
  refine ⟨?_, ?_, ?_⟩
  · intro hc
    simp only [swrender_CreateImage, hc]
  · intro cct hc hfmt
    rcases hfmt with rfl | rfl <;>
      simp [swrender_CreateImage, hc, htake, formatInfo, htex, mapSet, hax, hay]
  · intro cct hc h1 h2
    have hfmt : formatInfo format = none := by
      cases format <;> simp_all [formatInfo]
    simp [swrender_CreateImage, hc, htake, hfmt]

/-- Witness for C8 at concrete inputs: initState has no context (UserError
case); st1 has one, where RGBA succeeds with the default properties and
the luminance tag fails with BackendError. -/
theorem createImage_spec_witness :
    (swrender_CreateImage initState 8 8 .rgba =
      (pushError initState "GPU_CreateImage" .user_error, none)) ∧
    ((swrender_CreateImage st1 8 8 .rgba).2 = some 3 ∧
      ((swrender_CreateImage st1 8 8 .rgba).1.images 3).map
        GPUImageM.refcount = some 1) ∧
    (swrender_CreateImage st1 8 8 .luminance =
      (pushError st1 "GPU_CreateImage" .backend_error, none)) :=
  ⟨(createImage_spec initState 8 8 .rgba rfl rfl rfl rfl).1 rfl,
   ⟨((createImage_spec st1 8 8 .rgba rfl rfl rfl rfl).2.1 1 rfl (Or.inr rfl)).1,
    ((createImage_spec st1 8 8 .rgba rfl rfl rfl rfl).2.1 1 rfl (Or.inr rfl)).2.2.2.2.2.2.1⟩,
   (createImage_spec st1 8 8 .luminance rfl rfl rfl rfl).2.2 1 rfl
     (by decide) (by decide)⟩

theorem mapSet_same {α : Type} (m : Nat → Option α) (k : Nat) (v : α) :
    mapSet m k v k = some v := by
  simp [mapSet]

theorem mapSet_ne {α : Type} (m : Nat → Option α) (k : Nat) (v : α) (i : Nat)
    (h : i ≠ k) : mapSet m k v i = m i := by
  simp [mapSet, h]

/-- Sample run: stImg after creating an alias of image 3 (alias image 6,
backing data 4 now at refcount 2). -/
def stAlias : RState := (swrender_CreateAliasImage stImg (some 3)).1

/-- Sample run: stAlias after freeing the alias image 6. -/
def stFree1 : RState := swrender_FreeImage stAlias (some 6)

/-- Sample run: stFree1 after freeing the original image 3. -/
def stFree2 : RState := swrender_FreeImage stFree1 (some 3)

/-- Sample run: stFree2 after a third freeImage on the freed handle 3. -/
def stFree3 : RState := swrender_FreeImage stFree2 (some 3)

/-- Counterexample for C5 as stated: the third freeImage call on the same
handle is not a no-op and the refcount does go negative: the unguarded
pre-decrement takes the struct refcount from 0 to -1 and re-runs the
teardown path. -/
theorem freeImage_third_call_counterexample :
    (stFree2.images 3).map GPUImageM.refcount = some 0 ∧
    (stFree3.images 3).map GPUImageM.refcount = some (-1) := by
  exact ⟨rfl, rfl⟩

theorem setRenderTarget_images (u : RState) (t : Nat) :
    (setRenderTarget u t).1.images = u.images := by
  rw [setRenderTarget]
  rcases h : resolveCtx u t with _ | ⟨cid, ctx⟩
  · rfl
  · dsimp only
    split_ifs <;> rfl

theorem setRenderTarget_imageDatas (u : RState) (t : Nat) :
    (setRenderTarget u t).1.imageDatas = u.imageDatas := by
  rw [setRenderTarget]
  rcases h : resolveCtx u t with _ | ⟨cid, ctx⟩
  · rfl
  · dsimp only
    split_ifs <;> rfl

theorem setRenderTarget_texAlive (u : RState) (t : Nat) :
    (setRenderTarget u t).1.texAlive = u.texAlive := by
  rw [setRenderTarget]
  rcases h : resolveCtx u t with _ | ⟨cid, ctx⟩
  · rfl
  · dsimp only
    split_ifs <;> rfl

theorem clearImageBackref_imageDatas (u : RState) (tg : GPUTargetM) :
    (clearImageBackref u tg).imageDatas = u.imageDatas := by
  rcases hal : tg.is_alias
  · rcases h1 : tg.image with _ | iid
    · simp [clearImageBackref, hal, h1]
    · rcases h2 : u.images iid with _ | img <;>
        simp [clearImageBackref, hal, h1, h2]
  · simp [clearImageBackref, hal]

theorem clearImageBackref_texAlive (u : RState) (tg : GPUTargetM) :
    (clearImageBackref u tg).texAlive = u.texAlive := by
  rcases hal : tg.is_alias
  · rcases h1 : tg.image with _ | iid
    · simp [clearImageBackref, hal, h1]
    · rcases h2 : u.images iid with _ | img <;>
        simp [clearImageBackref, hal, h1, h2]
  · simp [clearImageBackref, hal]

theorem clearImageBackref_images_refcount (u : RState) (tg : GPUTargetM)
    (j : Nat) :
    ((clearImageBackref u tg).images j).map GPUImageM.refcount =
      (u.images j).map GPUImageM.refcount := by
  rcases hal : tg.is_alias
  · rcases h1 : tg.image with _ | iid
    · simp [clearImageBackref, hal, h1]
    · rcases h2 : u.images iid with _ | img
      · simp [clearImageBackref, hal, h1, h2]
      · by_cases hji : j = iid
        · subst hji
          simp [clearImageBackref, hal, h1, h2, mapSet]
        · simp [clearImageBackref, hal, h1, h2, mapSet, hji]
  · simp [clearImageBackref, hal]

theorem clearImageBackref_images_dataId (u : RState) (tg : GPUTargetM)
    (j : Nat) :
    ((clearImageBackref u tg).images j).map GPUImageM.dataId =
      (u.images j).map GPUImageM.dataId := by
  rcases hal : tg.is_alias
  · rcases h1 : tg.image with _ | iid
    · simp [clearImageBackref, hal, h1]
    · rcases h2 : u.images iid with _ | img
      · simp [clearImageBackref, hal, h1, h2]
      · by_cases hji : j = iid
        · subst hji
          simp [clearImageBackref, hal, h1, h2, mapSet]
        · simp [clearImageBackref, hal, h1, h2, mapSet, hji]
  · simp [clearImageBackref, hal]

theorem freeTarget_imageDatas (u : RState) (t : Option Nat) :
    (swrender_FreeTarget u t).imageDatas = u.imageDatas := by
  rcases t with _ | tid
  · rfl
  · rcases h : u.targets tid with _ | tgt
    · simp [swrender_FreeTarget, h]
    · rw [swrender_FreeTarget]
      simp only [h]
      split_ifs with hrc
      · rfl
      · rcases hc : tgt.context with _ | cid <;>
          simp only [hc] <;>
          (repeat' split) <;>
          simp [clearImageBackref_imageDatas, setRenderTarget_imageDatas]

theorem freeTarget_texAlive (u : RState) (t : Option Nat) :
    (swrender_FreeTarget u t).texAlive = u.texAlive := by
  rcases t with _ | tid
  · rfl
  · rcases h : u.targets tid with _ | tgt
    · simp [swrender_FreeTarget, h]
    · rw [swrender_FreeTarget]
      simp only [h]
      split_ifs with hrc
      · rfl
      · rcases hc : tgt.context with _ | cid <;>
          simp only [hc] <;>
          (repeat' split) <;>
          simp [clearImageBackref_texAlive, setRenderTarget_texAlive]

theorem freeTarget_images_refcount (u : RState) (t : Option Nat) (j : Nat) :
    ((swrender_FreeTarget u t).images j).map GPUImageM.refcount =
      (u.images j).map GPUImageM.refcount := by
  rcases t with _ | tid
  · rfl
  · rcases h : u.targets tid with _ | tgt
    · simp [swrender_FreeTarget, h]
    · rw [swrender_FreeTarget]
      simp only [h]
      split_ifs with hrc
      · rfl
      · rcases hc : tgt.context with _ | cid <;>
          simp only [hc] <;>
          (repeat' split) <;>
          simp [clearImageBackref_images_refcount, setRenderTarget_images]

theorem freeTarget_images_dataId (u : RState) (t : Option Nat) (j : Nat) :
    ((swrender_FreeTarget u t).images j).map GPUImageM.dataId =
      (u.images j).map GPUImageM.dataId := by
  rcases t with _ | tid
  · rfl
  · rcases h : u.targets tid with _ | tgt
    · simp [swrender_FreeTarget, h]
    · rw [swrender_FreeTarget]
      simp only [h]
      split_ifs with hrc
      · rfl
      · rcases hc : tgt.context with _ | cid <;>
          simp only [hc] <;>
          (repeat' split) <;>
          simp [clearImageBackref_images_dataId, setRenderTarget_images]

/-- One swrender_FreeImage call on a handle whose refcount is at most 1
always proceeds to teardown: the struct refcount drops by one (and its
target is cleared), the backing data refcount drops by one, the texture
dies exactly when the data refcount reaches zero, and every other image
keeps its refcount and backing data; the derived-target teardown the
call may trigger never touches image data or textures. -/
theorem freeImage_run (u : RState) (iid : Nat) (img2 : GPUImageM)
    (d2 : SWImageDataM) (h : u.images iid = some img2)
    (hd : u.imageDatas img2.dataId = some d2) (hrc : img2.refcount ≤ 1) :
    ((swrender_FreeImage u (some iid)).images iid).map GPUImageM.refcount =
      some (img2.refcount - 1) ∧
    ((swrender_FreeImage u (some iid)).images iid).map GPUImageM.dataId =
      some img2.dataId ∧
    (swrender_FreeImage u (some iid)).imageDatas img2.dataId =
      some { d2 with refcount := d2.refcount - 1 } ∧
    (swrender_FreeImage u (some iid)).texAlive d2.tex =
      (if d2.refcount - 1 ≤ 0 then false else u.texAlive d2.tex) ∧
    (∀ j, j ≠ iid →
      ((swrender_FreeImage u (some iid)).images j).map GPUImageM.refcount =
        (u.images j).map GPUImageM.refcount ∧
      ((swrender_FreeImage u (some iid)).images j).map GPUImageM.dataId =
        (u.images j).map GPUImageM.dataId) := by
  have hngt : ¬ (img2.refcount - 1 > 0) := by omega
  rcases htg : img2.target with _ | tid <;>
    refine ⟨?_, ?_, ?_, ?_, fun j hj => ⟨?_, ?_⟩⟩ <;>
    simp_all [swrender_FreeImage, mapSet, flagSet,
      freeTarget_imageDatas, freeTarget_texAlive,
      freeTarget_images_refcount, freeTarget_images_dataId,
      -Option.map_eq_some'] <;>
    try (split_ifs <;>
      simp_all [mapSet, flagSet, freeTarget_imageDatas, freeTarget_texAlive,
        freeTarget_images_refcount, freeTarget_images_dataId,
        -Option.map_eq_some']) <;>
    try omega

/-- C5 (amended): for every image handle with struct refcount 1 and
backing texture refcount 1 (a derived target or not),
freeImage(createAliasImage(I)) followed by freeImage(I) keeps the
backing texture alive after the first free and destroys it exactly at
the second; but a third freeImage on the same handle is not a no-op:
the unguarded pre-decrement drives the struct refcount to -1 and
re-runs the teardown path (the code never prevents a negative
refcount). -/
theorem freeImage_alias_texture_lifetime (s : RState) (iid : Nat)
    (img : GPUImageM) (d : SWImageDataM)
    (h : s.images iid = some img) (hrc : img.refcount = 1)
    (hd : s.imageDatas img.dataId = some d)
    (hdrc : d.refcount = 1) (htex : s.texAlive d.tex = true)
    (halloc : s.allocs = []) (hfresh : s.images s.nextId = none) :
    (swrender_CreateAliasImage s (some iid)).2 = .img s.nextId ∧
    (swrender_FreeImage (swrender_CreateAliasImage s (some iid)).1
        (some s.nextId)).texAlive d.tex = true ∧
    (swrender_FreeImage (swrender_FreeImage
        (swrender_CreateAliasImage s (some iid)).1 (some s.nextId))
        (some iid)).texAlive d.tex = false ∧
    ((swrender_FreeImage (swrender_FreeImage (swrender_FreeImage
        (swrender_CreateAliasImage s (some iid)).1 (some s.nextId))
        (some iid)) (some iid)).images iid).map GPUImageM.refcount =
      some (-1) := by
  have hne : iid ≠ s.nextId := by
    intro he
    rw [he, hfresh] at h
    exact Option.noConfusion h
  have htake : takeAlloc s = (true, s) := by rw [takeAlloc, halloc]
  have hA : swrender_CreateAliasImage s (some iid) =
      ({ s with
          images := mapSet s.images s.nextId { img with refcount := 1, is_alias := true },
          imageDatas := mapSet s.imageDatas img.dataId { d with refcount := d.refcount + 1 },
          nextId := s.nextId + 1 }, .img s.nextId) := by
    simp [swrender_CreateAliasImage, h, htake, hd]
  obtain ⟨F1a, F1b, F1c, F1d, F1e⟩ :=
    freeImage_run { s with
          images := mapSet s.images s.nextId { img with refcount := 1, is_alias := true },
          imageDatas := mapSet s.imageDatas img.dataId { d with refcount := d.refcount + 1 },
          nextId := s.nextId + 1 } s.nextId
      { img with refcount := 1, is_alias := true }
      { d with refcount := d.refcount + 1 }
      (by simp [mapSet]) (by simp [mapSet]) (by simp)
  have c2 : (swrender_FreeImage { s with
          images := mapSet s.images s.nextId { img with refcount := 1, is_alias := true },
          imageDatas := mapSet s.imageDatas img.dataId { d with refcount := d.refcount + 1 },
          nextId := s.nextId + 1 } (some s.nextId)).texAlive d.tex = true := by
    simpa [hdrc, htex] using F1d
  have e1 : ((swrender_FreeImage { s with
          images := mapSet s.images s.nextId { img with refcount := 1, is_alias := true },
          imageDatas := mapSet s.imageDatas img.dataId { d with refcount := d.refcount + 1 },
          nextId := s.nextId + 1 } (some s.nextId)).images iid).map
      GPUImageM.refcount = some 1 := by
    rw [(F1e iid hne).1]
    simp [mapSet, hne, h, hrc]
  have e2 : ((swrender_FreeImage { s with
          images := mapSet s.images s.nextId { img with refcount := 1, is_alias := true },
          imageDatas := mapSet s.imageDatas img.dataId { d with refcount := d.refcount + 1 },
          nextId := s.nextId + 1 } (some s.nextId)).images iid).map
      GPUImageM.dataId = some img.dataId := by
    rw [(F1e iid hne).2]
    simp [mapSet, hne, h]
  obtain ⟨img3, himg3, hr3⟩ := Option.map_eq_some'.mp e1
  have hd3 : img3.dataId = img.dataId := by
    rw [himg3] at e2
    simpa using e2
  have hD1 : (swrender_FreeImage { s with
          images := mapSet s.images s.nextId { img with refcount := 1, is_alias := true },
          imageDatas := mapSet s.imageDatas img.dataId { d with refcount := d.refcount + 1 },
          nextId := s.nextId + 1 } (some s.nextId)).imageDatas img3.dataId =
      some { d with refcount := 1 } := by
    rw [hd3]
    simpa [hdrc] using F1c
  obtain ⟨F2a, F2b, F2c, F2d, F2e⟩ :=
    freeImage_run (swrender_FreeImage { s with
          images := mapSet s.images s.nextId { img with refcount := 1, is_alias := true },
          imageDatas := mapSet s.imageDatas img.dataId { d with refcount := d.refcount + 1 },
          nextId := s.nextId + 1 } (some s.nextId)) iid img3
      { d with refcount := 1 } himg3 hD1 (by omega)
  have c3 : (swrender_FreeImage (swrender_FreeImage { s with
          images := mapSet s.images s.nextId { img with refcount := 1, is_alias := true },
          imageDatas := mapSet s.imageDatas img.dataId { d with refcount := d.refcount + 1 },
          nextId := s.nextId + 1 } (some s.nextId))
      (some iid)).texAlive d.tex = false := by
    simpa using F2d
  have e3 : ((swrender_FreeImage (swrender_FreeImage { s with
          images := mapSet s.images s.nextId { img with refcount := 1, is_alias := true },
          imageDatas := mapSet s.imageDatas img.dataId { d with refcount := d.refcount + 1 },
          nextId := s.nextId + 1 } (some s.nextId))
      (some iid)).images iid).map GPUImageM.refcount = some 0 := by
    rw [F2a, hr3]
    norm_num
  obtain ⟨img4, himg4, hr4⟩ := Option.map_eq_some'.mp e3
  have hD2 : (swrender_FreeImage (swrender_FreeImage { s with
          images := mapSet s.images s.nextId { img with refcount := 1, is_alias := true },
          imageDatas := mapSet s.imageDatas img.dataId { d with refcount := d.refcount + 1 },
          nextId := s.nextId + 1 } (some s.nextId))
      (some iid)).imageDatas img4.dataId = some { d with refcount := 0 } := by
    have e4 : ((swrender_FreeImage (swrender_FreeImage { s with
          images := mapSet s.images s.nextId { img with refcount := 1, is_alias := true },
          imageDatas := mapSet s.imageDatas img.dataId { d with refcount := d.refcount + 1 },
          nextId := s.nextId + 1 } (some s.nextId))
        (some iid)).images iid).map GPUImageM.dataId = some img.dataId := by
      rw [F2b, hd3]
    rw [himg4] at e4
    have e5 : img4.dataId = img.dataId := by simpa using e4
    rw [e5]
    rw [hd3] at F2c
    simpa using F2c
  obtain ⟨F3a, F3b, F3c, F3d, F3e⟩ :=
    freeImage_run (swrender_FreeImage (swrender_FreeImage { s with
          images := mapSet s.images s.nextId { img with refcount := 1, is_alias := true },
          imageDatas := mapSet s.imageDatas img.dataId { d with refcount := d.refcount + 1 },
          nextId := s.nextId + 1 } (some s.nextId))
      (some iid)) iid img4 { d with refcount := 0 } himg4 hD2 (by omega)
  have c4 : ((swrender_FreeImage (swrender_FreeImage (swrender_FreeImage { s with
          images := mapSet s.images s.nextId { img with refcount := 1, is_alias := true },
          imageDatas := mapSet s.imageDatas img.dataId { d with refcount := d.refcount + 1 },
          nextId := s.nextId + 1 }
      (some s.nextId)) (some iid)) (some iid)).images iid).map
      GPUImageM.refcount = some (-1) := by
    rw [F3a, hr4]
    norm_num
  rw [hA]
  exact ⟨rfl, c2, c3, c4⟩

/-- Witness for C5 at the sample image 3 of stImg (backing data 4 at
refcount 1, texture 5 alive, no derived target). -/
theorem freeImage_alias_texture_lifetime_witness :
    (swrender_CreateAliasImage stImg (some 3)).2 = .img 6 ∧
    (swrender_FreeImage (swrender_CreateAliasImage stImg (some 3)).1
        (some 6)).texAlive 5 = true ∧
    (swrender_FreeImage (swrender_FreeImage
        (swrender_CreateAliasImage stImg (some 3)).1 (some 6))
        (some 3)).texAlive 5 = false ∧
    ((swrender_FreeImage (swrender_FreeImage (swrender_FreeImage
        (swrender_CreateAliasImage stImg (some 3)).1 (some 6))
        (some 3)) (some 3)).images 3).map GPUImageM.refcount =
      some (-1) :=
  freeImage_alias_texture_lifetime stImg 3
    ⟨1, none, 8, 8, .rgba, 4, 4, 1/2, 1/2, true, .normal, .linear,
      .position_and_dimensions, .none_, .none_, 4, 1, false⟩
    ⟨1, .rgba8888, 5⟩ rfl rfl rfl rfl rfl rfl rfl

theorem clearImageBackref_fields (s : RState) (tgt : GPUTargetM) :
    (clearImageBackref s tgt).targets = s.targets ∧
    (clearImageBackref s tgt).contexts = s.contexts ∧
    (clearImageBackref s tgt).freedTargets = s.freedTargets ∧
    (clearImageBackref s tgt).current_context_target = s.current_context_target ∧
    (clearImageBackref s tgt).setRenderTargetCalls = s.setRenderTargetCalls := by
  rcases hal : tgt.is_alias
  · rcases h1 : tgt.image with _ | iid
    · simp [clearImageBackref, hal, h1]
    · rcases h2 : s.images iid with _ | img <;>
        simp [clearImageBackref, hal, h1, h2]
  · simp [clearImageBackref, hal]

/-- A target whose refcount is 1 and that is not the window target is
always freed by swrender_FreeTarget: every branch of the offscreen
teardown ends with SDL_free on the struct. -/
theorem freeTarget_frees (u : RState) (tid : Nat) (tgt : GPUTargetM)
    (h : u.targets tid = some tgt) (hrc : tgt.refcount = 1)
    (hoff : tgt.context = none) :
    tid ∈ (swrender_FreeTarget u (some tid)).freedTargets := by
  rw [swrender_FreeTarget]
  simp only [h]
  rw [if_neg (by omega)]
  simp only [hoff]
  exact List.mem_cons_self _ _

/-- Counterexample for C6 as stated: for the image 3 of stL, whose
derived target 6 already exists with refcount 1, two loadTarget calls
leave the refcount at 3, not 2. -/
theorem loadTarget_preexisting_refcount_counterexample :
    (((swrender_LoadTarget (swrender_LoadTarget stL (some 3)).1
        (some 3)).1).targets 6).map GPUTargetM.refcount = some 3 ∧
    (3 : Int) ≠ 2 :=
  ⟨rfl, by decide⟩

/-- C6 (amended): for every non-null image that has no derived Target
yet (with allocation succeeding), calling loadTarget twice returns the
identical Target both times and leaves that Target's refcount at exactly
2 (the second call only increments the refcount of the target the first
call created), and the Target struct is freed only after freeTarget has
been called twice. -/
theorem loadTarget_twice_free_twice (s : RState) (iid : Nat) (img : GPUImageM)
    (h : s.images iid = some img) (ht : img.target = none)
    (halloc : s.allocs = []) (hnf : s.nextId ∉ s.freedTargets) :
    (swrender_LoadTarget s (some iid)).2 = some s.nextId ∧
    (swrender_LoadTarget (swrender_LoadTarget s (some iid)).1 (some iid)).2 =
      some s.nextId ∧
    ((swrender_LoadTarget (swrender_LoadTarget s (some iid)).1 (some iid)).1.targets
        s.nextId).map GPUTargetM.refcount = some 2 ∧
    s.nextId ∉ (swrender_FreeTarget
        ((swrender_LoadTarget (swrender_LoadTarget s (some iid)).1 (some iid)).1)
        (some s.nextId)).freedTargets ∧
    s.nextId ∈ (swrender_FreeTarget (swrender_FreeTarget
        ((swrender_LoadTarget (swrender_LoadTarget s (some iid)).1 (some iid)).1)
        (some s.nextId)) (some s.nextId)).freedTargets := by
  refine ⟨?_, ?_, ?_, ?_, ?_⟩
  · norm_num [swrender_LoadTarget, takeAlloc, halloc, h, ht, mapSet]
  · norm_num [swrender_LoadTarget, takeAlloc, halloc, h, ht, mapSet]
  · norm_num [swrender_LoadTarget, takeAlloc, halloc, h, ht, mapSet]
  · norm_num [swrender_LoadTarget, swrender_FreeTarget, takeAlloc, halloc,
      h, ht, mapSet, hnf]
  · refine freeTarget_frees _ s.nextId
      ⟨img.context_target, some iid, img.w, img.h, none, 1, false⟩ ?_ rfl rfl
    norm_num [swrender_LoadTarget, swrender_FreeTarget, takeAlloc, halloc,
      h, ht, mapSet]

/-- Witness for C6 at the sample image 3 of stImg, which has no derived
target yet; the fresh target gets identifier 6. -/
theorem loadTarget_twice_free_twice_witness :
    (swrender_LoadTarget stImg (some 3)).2 = some 6 ∧
    (swrender_LoadTarget (swrender_LoadTarget stImg (some 3)).1 (some 3)).2 =
      some 6 ∧
    ((swrender_LoadTarget (swrender_LoadTarget stImg (some 3)).1 (some 3)).1.targets
        6).map GPUTargetM.refcount = some 2 ∧
    6 ∉ (swrender_FreeTarget
        ((swrender_LoadTarget (swrender_LoadTarget stImg (some 3)).1 (some 3)).1)
        (some 6)).freedTargets ∧
    6 ∈ (swrender_FreeTarget (swrender_FreeTarget
        ((swrender_LoadTarget (swrender_LoadTarget stImg (some 3)).1 (some 3)).1)
        (some 6)) (some 6)).freedTargets :=
  loadTarget_twice_free_twice stImg 3
    ⟨1, none, 8, 8, .rgba, 4, 4, 1/2, 1/2, true, .normal, .linear,
      .position_and_dimensions, .none_, .none_, 4, 1, false⟩
    rfl rfl rfl (by simp [stImg, st1, initState, swrender_CreateTargetFromWindow,
      swrender_CreateImage, takeAlloc, formatInfo, mapSet, flagSet])

/-- C9: when freeTarget releases an offscreen target (context = none)
whose refcount reaches zero and that is currently its owning context's
cached bound destination, the context's destination is rebound to the
window target before the struct is freed: afterwards the context caches
the window target, the released target is in the freed list, and the
cached render_target pointer does not refer to a freed target. -/
theorem freeTarget_rebinds_cached_destination (s : RState) (tid wt cid : Nat)
    (tgt wtgt : GPUTargetM) (ctx : GPUContextM)
    (h : s.targets tid = some tgt) (hoff : tgt.context = none)
    (hrc : tgt.refcount = 1) (hwt : tgt.context_target = wt)
    (hw : s.targets wt = some wtgt) (hwc : wtgt.context = some cid)
    (hwct : wtgt.context_target = wt) (hctx : s.contexts cid = some ctx)
    (hcache : ctx.render_target = tid) (hnf : wt ∉ s.freedTargets) :
    ((swrender_FreeTarget s (some tid)).contexts cid).map
        GPUContextM.render_target = some wt ∧
    tid ∈ (swrender_FreeTarget s (some tid)).freedTargets ∧
    wt ∉ (swrender_FreeTarget s (some tid)).freedTargets := by
  have hne : tid ≠ wt := by
    intro he
    subst he
    rw [h] at hw
    injection hw with hh
    rw [hh, hwc] at hoff
    exact Option.noConfusion hoff
  have hne' : wt ≠ tid := Ne.symm hne
  obtain ⟨ht2, hc2, hf2, hcc2, hsc2⟩ :=
    clearImageBackref_fields
      { s with targets :=
          mapSet s.targets tid (⟨wt, tgt.image, tgt.w, tgt.h, none, 0, tgt.is_alias⟩ : GPUTargetM) }
      ⟨wt, tgt.image, tgt.w, tgt.h, none, 0, tgt.is_alias⟩
  refine ⟨?_, ?_, ?_⟩ <;>
    norm_num [swrender_FreeTarget, h, hoff, hwt, hrc, setRenderTarget,
      resolveCtx, ht2, hc2, hf2, mapSet, hne, hne', hnf, hcache, hctx,
      hw, hwc, hwct]

/-- Sample run: stL after one blit of image 3 onto the offscreen target
6, which makes target 6 the context's cached bound destination. -/
def stBlit : RState := swrender_Blit stL (some 3) none 6 0 0

/-- Witness for C9: freeing the offscreen target 6 of stBlit (refcount
1, currently the cached destination of context 2) rebinds the context to
the window target 1 and frees only target 6. -/
theorem freeTarget_rebinds_cached_destination_witness :
    ((swrender_FreeTarget stBlit (some 6)).contexts 2).map
        GPUContextM.render_target = some 1 ∧
    6 ∈ (swrender_FreeTarget stBlit (some 6)).freedTargets ∧
    1 ∉ (swrender_FreeTarget stBlit (some 6)).freedTargets :=
  freeTarget_rebinds_cached_destination stBlit 6 1 2
    ⟨1, some 3, 8, 8, none, 1, false⟩ ⟨1, none, 640, 480, some 2, 1, false⟩
    ⟨1, 640, 480, 0, 6⟩ (by decide) rfl rfl rfl (by decide) rfl rfl
    (by decide) rfl (by decide)

/-- C10 fails on the code: swrender_CreateAliasImage never null-checks
its SDL_malloc, so a failing allocation dereferences the null result
instead of returning null, and swrender_CreateTargetFromWindow frees its
three structs on a malloc failure but never destroys the SDL renderer it
had already created, leaking that sibling resource (and pushing no
error).  This theorem evaluates the model at both failing inputs. -/
theorem creation_alloc_failure_divergence :
    (swrender_CreateAliasImage { stImg with allocs := [false] } (some 3)).2 =
      .crash ∧
    (swrender_CreateTargetFromWindow
        { initState with allocs := [false, true, true] } 1 none).2 = none ∧
    ((swrender_CreateTargetFromWindow
        { initState with allocs := [false, true, true] } 1 none).1).sdlRendererAlive
      0 = true ∧
    ((swrender_CreateTargetFromWindow
        { initState with allocs := [false, true, true] } 1 none).1).errors = [] := by
  exact ⟨rfl, rfl, rfl, rfl⟩
